import Mathlib

/-!
Verification of the membership-gate bot (src/main.py).

The script is embedded shallowly: handlers become pure functions producing a
trace of effects (membership lookup, outbound messages, callback
acknowledgement, invocation of the protected business action), configuration
loading becomes a function from an environment map to an Except value, and
the small string helpers are translated directly.
-/

namespace BotGate

/- Raw wire values of telegram.constants.ChatMemberStatus used by the script.
Note the OWNER status has raw value "creator" on the wire. -/
namespace ChatMemberStatus

def MEMBER : String := "member"

def ADMINISTRATOR : String := "administrator"

def OWNER : String := "creator"

def RESTRICTED : String := "restricted"

def LEFT : String := "left"

def KICKED : String := "kicked"

end ChatMemberStatus

/-- Embeds main.py is_joined: membership of the status string in the fixed
inclusion set. -/
def is_joined (status : String) : Bool :=
  status == ChatMemberStatus.MEMBER ||
  status == ChatMemberStatus.ADMINISTRATOR ||
  status == ChatMemberStatus.OWNER ||
  status == ChatMemberStatus.RESTRICTED

/-- Python str.lstrip("-"): drop every leading dash. -/
def lstripDashes (s : String) : String :=
  String.mk (s.toList.dropWhile (fun c => c = '-'))

/-- Python str.isdigit restricted to ASCII digits: nonempty and all digits. -/
def pyIsdigit (s : String) : Bool :=
  !s.toList.isEmpty && s.toList.all (fun c => c.isDigit)

/-- Python str.startswith for a single-character needle: the first character
of the string equals the given character. -/
def pyStartswith (s : String) (c : Char) : Bool :=
  s.toList.head? == some c

/-- Python str.strip with no argument: remove whitespace from both ends. -/
def pyStrip (s : String) : String :=
  String.mk
    (((s.toList.dropWhile Char.isWhitespace).reverse.dropWhile
        Char.isWhitespace).reverse)

/-- Python str.lower restricted to the ASCII range the script compares. -/
def pyLower (s : String) : String :=
  String.mk (s.toList.map Char.toLower)

/-- Python int() applied to a string of the shape dashes-then-digits (the only
shape the script feeds it): succeeds with at most one leading minus sign. -/
def pyInt (s : String) : Option Int :=
  match s.toNat? with
  | some n => some (n : Int)
  | none =>
    if pyStartswith s '-' then
      match (s.drop 1).toNat? with
      | some n => some (-(n : Int))
      | none => none
    else none

/-- The process-wide configuration the script loads from the environment.
REQUIRED_CHAT is an Int when the raw value is digits after stripping leading
dashes, otherwise the raw string, exactly as in main.py line 40. -/
structure Config where
  BOT_TOKEN : String
  REQUIRED_CHAT_RAW : String
  REQUIRED_CHAT : Int ⊕ String
  JOIN_URL : String
  SILENT_FOR_NOT_JOINED : Bool
deriving DecidableEq

/-- Embeds the startup configuration block of main.py (lines 29-40): getenv
with default "", strip, fail fast on empty BOT_TOKEN or REQUIRED_CHAT, then
convert REQUIRED_CHAT to an Int when it is digits after stripping dashes. -/
def loadConfig (env : String → Option String) : Except String Config :=
  let botToken := pyStrip ((env "BOT_TOKEN").getD "")
  let requiredRaw := pyStrip ((env "REQUIRED_CHAT").getD "")
  let joinUrl := pyStrip ((env "JOIN_URL").getD "")
  let silent := pyLower (pyStrip ((env "SILENT_FOR_NOT_JOINED").getD "false")) == "true"
  if botToken = "" then
    Except.error "BOT_TOKEN 未设置：请在 .env 配置 BOT_TOKEN=xxx"
  else if requiredRaw = "" then
    Except.error "REQUIRED_CHAT 未设置：请在 .env 配置 REQUIRED_CHAT=@xxx 或 -100xxx"
  else if pyIsdigit (lstripDashes requiredRaw) then
    match pyInt requiredRaw with
    | some n =>
      Except.ok
        { BOT_TOKEN := botToken, REQUIRED_CHAT_RAW := requiredRaw,
          REQUIRED_CHAT := Sum.inl n, JOIN_URL := joinUrl,
          SILENT_FOR_NOT_JOINED := silent }
    | none => Except.error "ValueError: invalid literal for int()"
  else
    Except.ok
      { BOT_TOKEN := botToken, REQUIRED_CHAT_RAW := requiredRaw,
        REQUIRED_CHAT := Sum.inr requiredRaw, JOIN_URL := joinUrl,
        SILENT_FOR_NOT_JOINED := silent }

/-- The fixed callback tag of the recheck button (main.py line 42). -/
def BTN_RECHECK : String := "recheck_join"

/-- Embeds build_join_url: JOIN_URL takes precedence; else a t.me deep link
when REQUIRED_CHAT is a string starting with the at sign; else empty. -/
def build_join_url (cfg : Config) : String :=
  if cfg.JOIN_URL ≠ "" then cfg.JOIN_URL
  else
    match cfg.REQUIRED_CHAT with
    | Sum.inr s => if pyStartswith s '@' then "https://t.me/" ++ s.drop 1 else ""
    | Sum.inl _ => ""

/-- An inline keyboard button as the script constructs it: a label plus
either a url or a callback tag. -/
structure InlineKeyboardButton where
  text : String
  url : Option String
  callback_data : Option String
deriving DecidableEq

/-- An outbound message: text plus inline keyboard rows (empty when the
script sends plain text with no reply_markup). -/
structure Msg where
  text : String
  buttons : List (List InlineKeyboardButton)
deriving DecidableEq

/-- The fields of a telegram Update that start_with_gate reads. -/
structure Update where
  effectiveUserId : Int
  effectiveChatId : Int
deriving DecidableEq

/-- The fields of a callback query that on_recheck reads: the pressing user
and the chat id of the message carrying the button (none when q.message is
absent). -/
structure CallbackQuery where
  fromUserId : Int
  messageChatId : Option Int
deriving DecidableEq

/-- Outcome of the external getChatMember call: a raw status string, or a
TelegramError carrying its type name and message. -/
inductive LookupResult where
  | ok (status : String)
  | err (typeName msg : String)
deriving DecidableEq

/-- One observable effect of a handler. Ctx is the (opaque) type of the
python-telegram-bot context object; invoke records the exact update and
context the protected action receives. -/
inductive Action (Ctx : Type) where
  | lookup
  | sendMsg (chatId : Int) (m : Msg)
  | answerCallback
  | invoke (upd : Update) (ctx : Ctx)
deriving DecidableEq

/-- Number of sendMsg effects in a trace. -/
def numSends {Ctx : Type} : List (Action Ctx) → Nat
  | [] => 0
  | Action.sendMsg _ _ :: t => numSends t + 1
  | _ :: t => numSends t

/-- Number of invocations of the protected action in a trace. -/
def numInvokes {Ctx : Type} : List (Action Ctx) → Nat
  | [] => 0
  | Action.invoke _ _ :: t => numInvokes t + 1
  | _ :: t => numInvokes t

/-- Embeds check_membership: apply is_joined to the looked-up status, letting
a TelegramError propagate. -/
def check_membership (r : LookupResult) : Except (String × String) Bool :=
  match r with
  | LookupResult.ok s => Except.ok (is_joined s)
  | LookupResult.err t m => Except.error (t, m)

/-- The standard prompt body of send_join_prompt (main.py line 81). -/
def joinPromptText : String :=
  "🚫 需要先加入指定频道/群才能使用本机器人。\n加入后点击「我已加入，点我复查」。"

/-- The join button built by send_join_prompt for a given url. -/
def joinButton (url : String) : InlineKeyboardButton :=
  { text := "✅ 去加入频道/群", url := some url, callback_data := none }

/-- The recheck button built by send_join_prompt. -/
def recheckButton : InlineKeyboardButton :=
  { text := "🔄 我已加入，点我复查", url := none, callback_data := some BTN_RECHECK }

/-- The button rows send_join_prompt assembles: a join row only when a join
url is derivable, then always the recheck row. -/
def promptButtons (cfg : Config) : List (List InlineKeyboardButton) :=
  (if build_join_url cfg ≠ "" then [[joinButton (build_join_url cfg)]] else []) ++
  [[recheckButton]]

/-- The full prompt message send_join_prompt sends: extra_text, when
nonempty, is prepended to the standard body with a blank line. -/
def promptMessage (cfg : Config) (extra_text : String) : Msg :=
  { text :=
      if extra_text ≠ "" then extra_text ++ "\n\n" ++ joinPromptText
      else joinPromptText,
    buttons := promptButtons cfg }

/-- Embeds send_join_prompt as a trace: nothing in silent mode, otherwise
exactly one message to the given chat. -/
def send_join_prompt (Ctx : Type) (cfg : Config) (chat_id : Int)
    (extra_text : String) : List (Action Ctx) :=
  if cfg.SILENT_FOR_NOT_JOINED then []
  else [Action.sendMsg chat_id (promptMessage cfg extra_text)]

/-- The diagnostic text start_with_gate builds on a TelegramError
(main.py lines 108-112). -/
def diagText (cfg : Config) (typeName msg : String) : String :=
  "⚠️ 无法校验入群状态（可能 REQUIRED_CHAT 配置错误，或 bot 未加入/无权限）。\n" ++
  "REQUIRED_CHAT=" ++ cfg.REQUIRED_CHAT_RAW ++ "\n" ++
  "错误：" ++ typeName ++ ": " ++ msg

/-- Embeds start_with_gate as a trace: one membership lookup, then either the
diagnostic prompt (lookup error), the standard prompt (not joined), or a
single invocation of business_start with the original update and context. -/
def start_with_gate {Ctx : Type} (cfg : Config) (r : LookupResult)
    (update : Update) (context : Ctx) : List (Action Ctx) :=
  Action.lookup ::
    match check_membership r with
    | Except.error (t, m) =>
        send_join_prompt Ctx cfg update.effectiveChatId (diagText cfg t m)
    | Except.ok false => send_join_prompt Ctx cfg update.effectiveChatId ""
    | Except.ok true => [Action.invoke update context]

/-- The confirmation text on_recheck sends when the recheck passes. -/
def recheckOkText : String := "🎉 已确认你已加入！请发送 /start 继续。"

/-- The short failure text on_recheck sends on a TelegramError. -/
def recheckFailText (typeName msg : String) : String :=
  "⚠️ 复查失败：" ++ typeName ++ ": " ++ msg

/-- Embeds on_recheck as a trace: acknowledge the callback first, stop if the
carrying message or its chat id is falsy (Python: if not chat_id), otherwise
look up membership and answer with the failure text, the standard prompt, or
the confirmation, each suppressed in silent mode except the prompt which
suppresses itself. -/
def on_recheck (Ctx : Type) (cfg : Config) (r : LookupResult)
    (q : CallbackQuery) : List (Action Ctx) :=
  Action.answerCallback ::
    match q.messageChatId with
    | none => []
    | some chat_id =>
      if chat_id = 0 then []
      else
        Action.lookup ::
          match check_membership r with
          | Except.error (t, m) =>
              if cfg.SILENT_FOR_NOT_JOINED then []
              else [Action.sendMsg chat_id
                      { text := recheckFailText t m, buttons := [] }]
          | Except.ok false => send_join_prompt Ctx cfg chat_id ""
          | Except.ok true =>
              if cfg.SILENT_FOR_NOT_JOINED then []
              else [Action.sendMsg chat_id { text := recheckOkText, buttons := [] }]

/-- C1: is_joined returns true on each of the member, administrator, owner
and restricted statuses, and false on the left and kicked statuses. -/
theorem c1_is_joined_inclusion :
    is_joined ChatMemberStatus.MEMBER = true ∧
    is_joined ChatMemberStatus.ADMINISTRATOR = true ∧
    is_joined ChatMemberStatus.OWNER = true ∧
    is_joined ChatMemberStatus.RESTRICTED = true ∧
    is_joined ChatMemberStatus.LEFT = false ∧
    is_joined ChatMemberStatus.KICKED = false := by
  decide

/-- C10: is_joined is total on status strings and is true exactly on the
fixed inclusion set, hence false on every other string, including unknown
future statuses. -/
theorem c10_is_joined_total (s : String) :
    is_joined s = true ↔
      s = ChatMemberStatus.MEMBER ∨ s = ChatMemberStatus.ADMINISTRATOR ∨
      s = ChatMemberStatus.OWNER ∨ s = ChatMemberStatus.RESTRICTED := by
  simp [is_joined, Bool.or_eq_true, beq_iff_eq, or_assoc]

/-- C2: when the oracle reports a joined status, the gate invokes the
protected action exactly once, with the original update and context objects
unchanged, and emits no message. -/
theorem c2_gate_joined_invokes_once {Ctx : Type} (cfg : Config) (s : String)
    (update : Update) (context : Ctx) (h : is_joined s = true) :
    start_with_gate cfg (LookupResult.ok s) update context
      = [Action.lookup, Action.invoke update context] ∧
    numInvokes (start_with_gate cfg (LookupResult.ok s) update context) = 1 ∧
    numSends (start_with_gate cfg (LookupResult.ok s) update context) = 0 := by
  simp [start_with_gate, check_membership, h, numInvokes, numSends]

/-- C2 witness: a concrete joined evaluation. -/
theorem c2_gate_joined_invokes_once_witness :
    start_with_gate
        { BOT_TOKEN := "t", REQUIRED_CHAT_RAW := "@c",
          REQUIRED_CHAT := Sum.inr "@c", JOIN_URL := "",
          SILENT_FOR_NOT_JOINED := false }
        (LookupResult.ok "member") ⟨1, 2⟩ ()
      = [Action.lookup, Action.invoke ⟨1, 2⟩ ()] ∧
    numInvokes (start_with_gate
        { BOT_TOKEN := "t", REQUIRED_CHAT_RAW := "@c",
          REQUIRED_CHAT := Sum.inr "@c", JOIN_URL := "",
          SILENT_FOR_NOT_JOINED := false }
        (LookupResult.ok "member") ⟨1, 2⟩ ()) = 1 ∧
    numSends (start_with_gate
        { BOT_TOKEN := "t", REQUIRED_CHAT_RAW := "@c",
          REQUIRED_CHAT := Sum.inr "@c", JOIN_URL := "",
          SILENT_FOR_NOT_JOINED := false }
        (LookupResult.ok "member") ⟨1, 2⟩ ()) = 0 :=
  c2_gate_joined_invokes_once _ "member" ⟨1, 2⟩ () (by decide)

/-- C3: when the oracle reports a not-joined status and silent mode is off,
the gate emits exactly one prompt, that prompt carries the recheck button
with the fixed callback tag, and the protected action is not invoked. -/
theorem c3_gate_not_joined_prompts {Ctx : Type} (cfg : Config) (s : String)
    (update : Update) (context : Ctx) (h1 : is_joined s = false)
    (h2 : cfg.SILENT_FOR_NOT_JOINED = false) :
    start_with_gate cfg (LookupResult.ok s) update context
      = [Action.lookup,
         Action.sendMsg update.effectiveChatId (promptMessage cfg "")] ∧
    [recheckButton] ∈ (promptMessage cfg "").buttons ∧
    recheckButton.callback_data = some BTN_RECHECK ∧
    numSends (start_with_gate cfg (LookupResult.ok s) update context) = 1 ∧
    numInvokes (start_with_gate cfg (LookupResult.ok s) update context) = 0 := by
  refine ⟨?_, ?_, rfl, ?_, ?_⟩ <;>
    simp [start_with_gate, check_membership, h1, send_join_prompt, h2,
      promptMessage, promptButtons, numSends, numInvokes]

/-- C3 witness: a concrete not-joined, non-silent evaluation. -/
theorem c3_gate_not_joined_prompts_witness :
    start_with_gate
        { BOT_TOKEN := "t", REQUIRED_CHAT_RAW := "@c",
          REQUIRED_CHAT := Sum.inr "@c", JOIN_URL := "",
          SILENT_FOR_NOT_JOINED := false }
        (LookupResult.ok "left") ⟨1, 2⟩ ()
      = [Action.lookup,
         Action.sendMsg 2
           (promptMessage
             { BOT_TOKEN := "t", REQUIRED_CHAT_RAW := "@c",
               REQUIRED_CHAT := Sum.inr "@c", JOIN_URL := "",
               SILENT_FOR_NOT_JOINED := false } "")] ∧
    [recheckButton] ∈
      (promptMessage
        { BOT_TOKEN := "t", REQUIRED_CHAT_RAW := "@c",
          REQUIRED_CHAT := Sum.inr "@c", JOIN_URL := "",
          SILENT_FOR_NOT_JOINED := false } "").buttons ∧
    recheckButton.callback_data = some BTN_RECHECK ∧
    numSends (start_with_gate
        { BOT_TOKEN := "t", REQUIRED_CHAT_RAW := "@c",
          REQUIRED_CHAT := Sum.inr "@c", JOIN_URL := "",
          SILENT_FOR_NOT_JOINED := false }
        (LookupResult.ok "left") ⟨1, 2⟩ ()) = 1 ∧
    numInvokes (start_with_gate
        { BOT_TOKEN := "t", REQUIRED_CHAT_RAW := "@c",
          REQUIRED_CHAT := Sum.inr "@c", JOIN_URL := "",
          SILENT_FOR_NOT_JOINED := false }
        (LookupResult.ok "left") ⟨1, 2⟩ ()) = 0 :=
  c3_gate_not_joined_prompts _ "left" ⟨1, 2⟩ () (by decide) (by decide)

/-- A sample non-silent configuration used to instantiate theorems. -/
def sampleCfg : Config :=
  { BOT_TOKEN := "token", REQUIRED_CHAT_RAW := "@mychannel",
    REQUIRED_CHAT := Sum.inr "@mychannel", JOIN_URL := "",
    SILENT_FOR_NOT_JOINED := false }

/-- A sample silent configuration used to instantiate theorems. -/
def sampleCfgSilent : Config :=
  { BOT_TOKEN := "token", REQUIRED_CHAT_RAW := "@mychannel",
    REQUIRED_CHAT := Sum.inr "@mychannel", JOIN_URL := "",
    SILENT_FOR_NOT_JOINED := true }

lemma on_recheck_silent {Ctx : Type} (cfg : Config)
    (h : cfg.SILENT_FOR_NOT_JOINED = true) (r : LookupResult)
    (q : CallbackQuery) :
    on_recheck Ctx cfg r q = [Action.answerCallback] ∨
    on_recheck Ctx cfg r q = [Action.answerCallback, Action.lookup] := by
  rcases q with ⟨u, mc⟩
  cases mc with
  | none => left; simp [on_recheck]
  | some c =>
    by_cases hc : c = 0
    · left; simp [on_recheck, hc]
    · right
      cases r with
      | err t m => simp [on_recheck, hc, check_membership, h]
      | ok s =>
        cases hj : is_joined s <;>
          simp [on_recheck, hc, check_membership, hj, send_join_prompt, h]

lemma gate_blocked_silent {Ctx : Type} (cfg : Config)
    (h : cfg.SILENT_FOR_NOT_JOINED = true) (r : LookupResult)
    (hr : ∀ s, r = LookupResult.ok s → is_joined s = false)
    (update : Update) (context : Ctx) :
    start_with_gate cfg r update context = [Action.lookup] := by
  cases r with
  | err t m => simp [start_with_gate, check_membership, send_join_prompt, h]
  | ok s =>
    have hj := hr s rfl
    simp [start_with_gate, check_membership, hj, send_join_prompt, h]

/-- C4: in silent mode no message is sent on either path, whatever the
oracle outcome, and the protected action is still withheld on not-joined and
lookup-error gate outcomes (the recheck path never invokes it at all). -/
theorem c4_silent_suppresses_messages {Ctx : Type} (cfg : Config)
    (h : cfg.SILENT_FOR_NOT_JOINED = true) (r : LookupResult)
    (update : Update) (context : Ctx) (q : CallbackQuery) :
    numSends (on_recheck Ctx cfg r q) = 0 ∧
    numInvokes (on_recheck Ctx cfg r q) = 0 ∧
    ((∀ s, r = LookupResult.ok s → is_joined s = false) →
      numSends (start_with_gate cfg r update context) = 0 ∧
      numInvokes (start_with_gate cfg r update context) = 0) := by
  refine ⟨?_, ?_, fun hr => ?_⟩
  · rcases on_recheck_silent cfg h r q with heq | heq <;> rw [heq] <;>
      simp [numSends]
  · rcases on_recheck_silent cfg h r q with heq | heq <;> rw [heq] <;>
      simp [numInvokes]
  · rw [gate_blocked_silent cfg h r hr update context]
    simp [numSends, numInvokes]

/-- C4 witness: a concrete silent, not-joined evaluation on both paths. -/
theorem c4_silent_suppresses_messages_witness :
    numSends (on_recheck Unit sampleCfgSilent (LookupResult.ok "left")
      ⟨1, some 2⟩) = 0 ∧
    numInvokes (on_recheck Unit sampleCfgSilent (LookupResult.ok "left")
      ⟨1, some 2⟩) = 0 ∧
    numSends (start_with_gate sampleCfgSilent (LookupResult.ok "left")
      ⟨1, 2⟩ ()) = 0 ∧
    numInvokes (start_with_gate sampleCfgSilent (LookupResult.ok "left")
      ⟨1, 2⟩ ()) = 0 := by
  obtain ⟨a, b, c⟩ :=
    c4_silent_suppresses_messages sampleCfgSilent rfl (LookupResult.ok "left")
      ⟨1, 2⟩ () ⟨1, some 2⟩
  have hr : ∀ s, LookupResult.ok "left" = LookupResult.ok s →
      is_joined s = false := by
    intro s hs
    cases hs
    decide
  exact ⟨a, b, (c hr).1, (c hr).2⟩

lemma diagText_ne_empty (cfg : Config) (t m : String) :
    diagText cfg t m ≠ "" := by
  intro h
  have h2 : (diagText cfg t m).length = 0 := by rw [h]; rfl
  simp only [diagText, String.length_append] at h2
  have h3 : 0 < ("REQUIRED_CHAT=" : String).length := by decide
  omega

/-- C5: on a lookup error the gate invokes nothing and, when not silent,
emits one diagnostic prompt whose text prepends a diagnostic containing the
raw REQUIRED_CHAT value and the error type name and message to the standard
prompt body. -/
theorem c5_gate_lookup_error_diagnostic {Ctx : Type} (cfg : Config)
    (t m : String) (update : Update) (context : Ctx) :
    numInvokes (start_with_gate cfg (LookupResult.err t m) update context)
      = 0 ∧
    (cfg.SILENT_FOR_NOT_JOINED = false →
      start_with_gate cfg (LookupResult.err t m) update context
        = [Action.lookup,
           Action.sendMsg update.effectiveChatId
             (promptMessage cfg (diagText cfg t m))] ∧
      (promptMessage cfg (diagText cfg t m)).text
        = diagText cfg t m ++ "\n\n" ++ joinPromptText ∧
      (∃ p q', diagText cfg t m = p ++ cfg.REQUIRED_CHAT_RAW ++ q') ∧
      (∃ p, diagText cfg t m = p ++ (t ++ ": " ++ m))) := by
  constructor
  · cases hs : cfg.SILENT_FOR_NOT_JOINED <;>
      simp [start_with_gate, check_membership, send_join_prompt, hs,
        numInvokes]
  · intro hs
    refine ⟨?_, ?_, ?_, ?_⟩
    · simp [start_with_gate, check_membership, send_join_prompt, hs]
    · simp [promptMessage, diagText_ne_empty]
    · refine ⟨"⚠️ 无法校验入群状态（可能 REQUIRED_CHAT 配置错误，或 bot 未加入/无权限）。\n"
          ++ "REQUIRED_CHAT=",
        "\n" ++ "错误：" ++ t ++ ": " ++ m, ?_⟩
      simp [diagText, String.append_assoc]
    · refine ⟨"⚠️ 无法校验入群状态（可能 REQUIRED_CHAT 配置错误，或 bot 未加入/无权限）。\n"
          ++ "REQUIRED_CHAT=" ++ cfg.REQUIRED_CHAT_RAW ++ "\n" ++ "错误：", ?_⟩
      simp [diagText, String.append_assoc]

/-- C5 witness: a concrete lookup-error evaluation with silent mode off. -/
theorem c5_gate_lookup_error_diagnostic_witness :
    numInvokes (start_with_gate sampleCfg
      (LookupResult.err "Forbidden" "bot is not a member") ⟨1, 2⟩ ()) = 0 ∧
    (start_with_gate sampleCfg
        (LookupResult.err "Forbidden" "bot is not a member") ⟨1, 2⟩ ()
      = [Action.lookup,
         Action.sendMsg 2
           (promptMessage sampleCfg
             (diagText sampleCfg "Forbidden" "bot is not a member"))] ∧
     (promptMessage sampleCfg
        (diagText sampleCfg "Forbidden" "bot is not a member")).text
       = diagText sampleCfg "Forbidden" "bot is not a member"
           ++ "\n\n" ++ joinPromptText ∧
     (∃ p q', diagText sampleCfg "Forbidden" "bot is not a member"
       = p ++ sampleCfg.REQUIRED_CHAT_RAW ++ q') ∧
     (∃ p, diagText sampleCfg "Forbidden" "bot is not a member"
       = p ++ ("Forbidden" ++ ": " ++ "bot is not a member"))) :=
  ⟨(c5_gate_lookup_error_diagnostic sampleCfg "Forbidden"
      "bot is not a member" ⟨1, 2⟩ ()).1,
   (c5_gate_lookup_error_diagnostic sampleCfg "Forbidden"
      "bot is not a member" ⟨1, 2⟩ ()).2 rfl⟩

lemma on_recheck_no_invoke {Ctx : Type} (cfg : Config) (r : LookupResult)
    (q : CallbackQuery) : numInvokes (on_recheck Ctx cfg r q) = 0 := by
  rcases q with ⟨u, mc⟩
  cases mc with
  | none => simp [on_recheck, numInvokes]
  | some c =>
    by_cases hc : c = 0
    · simp [on_recheck, hc, numInvokes]
    · cases r with
      | err t m =>
        cases hs : cfg.SILENT_FOR_NOT_JOINED <;>
          simp [on_recheck, hc, check_membership, hs, numInvokes]
      | ok s =>
        cases hj : is_joined s <;> cases hs : cfg.SILENT_FOR_NOT_JOINED <;>
          simp [on_recheck, hc, check_membership, hj, hs, send_join_prompt,
            numInvokes]

/-- C7: when a recheck finds the user joined and silent mode is off, exactly
one confirmation message asking the user to re-send the gated command is
sent, and the recheck path never invokes the protected action. -/
theorem c7_recheck_joined_confirms (Ctx : Type) (cfg : Config) (s : String)
    (q : CallbackQuery) (c : Int) (h1 : q.messageChatId = some c)
    (h2 : c ≠ 0) (h3 : is_joined s = true)
    (h4 : cfg.SILENT_FOR_NOT_JOINED = false) :
    on_recheck Ctx cfg (LookupResult.ok s) q
      = [Action.answerCallback, Action.lookup,
         Action.sendMsg c { text := recheckOkText, buttons := [] }] ∧
    numSends (on_recheck Ctx cfg (LookupResult.ok s) q) = 1 ∧
    (∀ r2 q2, numInvokes (on_recheck Ctx cfg r2 q2) = 0) := by
  rcases q with ⟨u, mc⟩
  cases h1
  refine ⟨?_, ?_, fun r2 q2 => on_recheck_no_invoke cfg r2 q2⟩ <;>
    simp [on_recheck, h2, check_membership, h3, h4, numSends]

/-- C7 witness: a concrete joined recheck with silent mode off. -/
theorem c7_recheck_joined_confirms_witness :
    on_recheck Unit sampleCfg (LookupResult.ok "member") ⟨1, some 5⟩
      = [Action.answerCallback, Action.lookup,
         Action.sendMsg 5 { text := recheckOkText, buttons := [] }] ∧
    numSends (on_recheck Unit sampleCfg (LookupResult.ok "member")
      ⟨1, some 5⟩) = 1 ∧
    (∀ r2 q2, numInvokes (on_recheck Unit sampleCfg r2 q2) = 0) :=
  c7_recheck_joined_confirms Unit sampleCfg "member" ⟨1, some 5⟩ 5 rfl
    (by decide) (by decide) rfl

/-- C8: every recheck trace starts with the callback acknowledgement, and
everything after it is only the membership lookup and outbound messages, so
the acknowledgement strictly precedes the lookup and every response. -/
theorem c8_recheck_ack_first (Ctx : Type) (cfg : Config) (r : LookupResult)
    (q : CallbackQuery) :
    ∃ rest, on_recheck Ctx cfg r q = Action.answerCallback :: rest ∧
      ∀ a ∈ rest, a = Action.lookup ∨ ∃ c m, a = Action.sendMsg c m := by
  refine ⟨(on_recheck Ctx cfg r q).tail, ?_, ?_⟩
  · rcases q with ⟨u, mc⟩
    rfl
  · intro a ha
    rcases q with ⟨u, mc⟩
    cases mc with
    | none => simp [on_recheck] at ha
    | some c =>
      by_cases hc : c = 0
      · simp [on_recheck, hc] at ha
      · cases r with
        | err t m =>
          cases hs : cfg.SILENT_FOR_NOT_JOINED <;>
            simp [on_recheck, hc, check_membership, hs] at ha <;>
            tauto
        | ok s =>
          cases hj : is_joined s <;> cases hs : cfg.SILENT_FOR_NOT_JOINED <;>
            simp [on_recheck, hc, check_membership, hj, hs,
              send_join_prompt] at ha <;>
            tauto

/-- C9: startup fails with a configuration error whenever BOT_TOKEN or
REQUIRED_CHAT is missing or empty after trimming whitespace, so the process
never reaches a loaded configuration. -/
theorem c9_config_fail_fast (env : String → Option String)
    (h : pyStrip ((env "BOT_TOKEN").getD "") = "" ∨
         pyStrip ((env "REQUIRED_CHAT").getD "") = "") :
    ∃ e, loadConfig env = Except.error e := by
  by_cases hb : pyStrip ((env "BOT_TOKEN").getD "") = ""
  · exact ⟨"BOT_TOKEN 未设置：请在 .env 配置 BOT_TOKEN=xxx",
      by simp [loadConfig, hb]⟩
  · have hr : pyStrip ((env "REQUIRED_CHAT").getD "") = "" := by tauto
    exact ⟨"REQUIRED_CHAT 未设置：请在 .env 配置 REQUIRED_CHAT=@xxx 或 -100xxx",
      by simp [loadConfig, hb, hr]⟩

/-- C9 witness: the empty environment is rejected. -/
theorem c9_config_fail_fast_witness :
    ∃ e, loadConfig (fun _ => none) = Except.error e :=
  c9_config_fail_fast (fun _ => none) (Or.inl (by rfl))

lemma startswith_at_not_digit (s : String)
    (h : pyStartswith s '@' = true) :
    pyIsdigit (lstripDashes s) = false := by
  have hd : ('@' : Char).isDigit = false := by decide
  cases hl : s.data with
  | nil => simp [pyStartswith, String.toList, hl] at h
  | cons c t =>
    simp [pyStartswith, String.toList, hl] at h
    subst h
    have hstrip : lstripDashes s = String.mk ('@' :: t) := by
      simp [lstripDashes, String.toList, hl, List.dropWhile]
    rw [hstrip]
    simp [pyIsdigit, String.toList, List.all_cons, hd]

lemma loadConfig_ok_requiredChat (env : String → Option String) (cfg : Config)
    (h : loadConfig env = Except.ok cfg) :
    (pyIsdigit (lstripDashes cfg.REQUIRED_CHAT_RAW) = false →
      cfg.REQUIRED_CHAT = Sum.inr cfg.REQUIRED_CHAT_RAW) ∧
    (pyIsdigit (lstripDashes cfg.REQUIRED_CHAT_RAW) = true →
      ∃ n, cfg.REQUIRED_CHAT = Sum.inl n) := by
  simp only [loadConfig] at h
  split at h
  · exact absurd h (by simp)
  · split at h
    · exact absurd h (by simp)
    · split at h
      next hdig =>
        split at h
        next n hn =>
          injection h with h'
          subst h'
          refine ⟨fun hfalse => ?_, fun _ => ⟨n, rfl⟩⟩
          simp only at hfalse
          rw [hfalse] at hdig
          cases hdig
        next hn => exact absurd h (by simp)
      next hdig =>
        injection h with h'
        subst h'
        refine ⟨fun _ => rfl, fun htrue => ?_⟩
        simp only at htrue
        exact absurd htrue hdig

/-- C6: in every prompt built from a loaded configuration, the join button
carries JOIN_URL when that is set, else the t.me deep link derived from an
at-handle REQUIRED_CHAT, and otherwise the join button is omitted while the
recheck button row remains. -/
theorem c6_join_button_policy (env : String → Option String) (cfg : Config)
    (hload : loadConfig env = Except.ok cfg) :
    (cfg.JOIN_URL ≠ "" →
      promptButtons cfg = [[joinButton cfg.JOIN_URL], [recheckButton]]) ∧
    (cfg.JOIN_URL = "" → pyStartswith cfg.REQUIRED_CHAT_RAW '@' = true →
      promptButtons cfg
        = [[joinButton ("https://t.me/" ++ cfg.REQUIRED_CHAT_RAW.drop 1)],
           [recheckButton]]) ∧
    (cfg.JOIN_URL = "" → pyStartswith cfg.REQUIRED_CHAT_RAW '@' = false →
      promptButtons cfg = [[recheckButton]]) := by
  obtain ⟨hstr, hint⟩ := loadConfig_ok_requiredChat env cfg hload
  refine ⟨fun hju => ?_, fun hju hat => ?_, fun hju hat => ?_⟩
  · simp [promptButtons, build_join_url, hju]
  · have hd := startswith_at_not_digit _ hat
    have hc := hstr hd
    have hurl : build_join_url cfg
        = "https://t.me/" ++ cfg.REQUIRED_CHAT_RAW.drop 1 := by
      simp [build_join_url, hju, hc, hat]
    have hne : ("https://t.me/" ++ cfg.REQUIRED_CHAT_RAW.drop 1) ≠ "" := by
      intro hcon
      have h0 : ("https://t.me/" ++ cfg.REQUIRED_CHAT_RAW.drop 1).length
          = 0 := by rw [hcon]; rfl
      rw [String.length_append] at h0
      have h1 : 0 < ("https://t.me/" : String).length := by decide
      omega
    simp [promptButtons, hurl, hne]
  · have hurl : build_join_url cfg = "" := by
      cases hb : pyIsdigit (lstripDashes cfg.REQUIRED_CHAT_RAW) with
      | false =>
        have hc := hstr hb
        simp [build_join_url, hju, hc, hat]
      | true =>
        obtain ⟨n, hc⟩ := hint hb
        simp [build_join_url, hju, hc]
    simp [promptButtons, hurl]

/-- C6 witness: the spec scenario of an at-handle REQUIRED_CHAT with
JOIN_URL unset, which yields the t.me join button plus the recheck row. -/
theorem c6_join_button_policy_witness :
    promptButtons sampleCfg
      = [[joinButton ("https://t.me/" ++ sampleCfg.REQUIRED_CHAT_RAW.drop 1)],
         [recheckButton]] :=
  (c6_join_button_policy
      (fun k =>
        if k = "BOT_TOKEN" then some "token"
        else if k = "REQUIRED_CHAT" then some "@mychannel" else none)
      sampleCfg (by rfl)).2.1 rfl (by decide)

end BotGate
